import Mathlib

/-!
Shallow embedding of the PDF-summarizer backend (src/main.py) and
verification of its specification claims.

Modelling conventions:
* Python strings are Lean `String`; `len` is `String.length` (code points),
  slicing `s[:n]` is `String.mk (s.toList.take n)`, `.strip()` is
  `pyStrip` (drop ASCII whitespace at both ends), `.lower()` is
  `pyLower` (ASCII lowercasing, characterwise).
* The job record stored in `tasks_storage[job_id]` is a Python dict whose
  keys may be absent; absent keys are `none` in `JobRecord`.
* External collaborators are oracles: the PDF document is the list of
  per-page `extract_text()` results (`Option String`, `none` for a page
  with no text) together with a flag for a pdfplumber exception; the
  Ollama backend is a function from the prompt to `Option String`
  (`none` models `ollama.chat` raising, `some c` a reply with content
  `c`, possibly empty).
* `process_pdf_thread` is deterministic given those oracles; we record
  the successive values of `tasks_storage[job_id]` (each assignment to
  the record or to one of its keys) as a trace, plus whether the
  summarization step was ever invoked.
-/

/-- The five job statuses of the pipeline state machine. -/
inductive Status where
  | processing
  | extracting
  | summarizing
  | completed
  | error
deriving DecidableEq, Repr, Inhabited

/-- A snapshot of `tasks_storage[job_id]`: a dict whose keys may be absent. -/
structure JobRecord where
  status : Status
  filename : Option String := none
  text_length : Option Nat := none
  summary : Option String := none
  error : Option String := none
deriving DecidableEq, Repr, Inhabited

/-- `MAX_FILE_SIZE = 10 * 1024 * 1024` (main.py line 24). -/
def MAX_FILE_SIZE : Nat := 10 * 1024 * 1024

/-- `ALLOWED_EXTENSIONS = {".pdf"}` (main.py line 25). -/
def ALLOWED_EXTENSIONS : List String := [".pdf"]

/-- `OLLAMA_MODEL = "mistral"` (main.py line 26). -/
def OLLAMA_MODEL : String := "mistral"

/-- The whitespace characters stripped by Python `str.strip()`
(ASCII range). -/
def pyIsSpace (c : Char) : Bool :=
  c == ' ' || c == '\t' || c == '\n' || c == '\r' || c == '\x0b' || c == '\x0c'

/-- Python `s.strip()`: remove leading and trailing whitespace. -/
def pyStrip (s : String) : String :=
  String.mk
    (((s.toList.dropWhile pyIsSpace).reverse.dropWhile pyIsSpace).reverse)

/-- Python `s.lower()` on ASCII text: lowercase each character. -/
def pyLower (s : String) : String :=
  String.mk (s.toList.map Char.toLower)

/-- Python `str.rfind` on a list of characters: index of the last
occurrence of `c`, or `-1` when absent. -/
def rfindAux (l : List Char) (c : Char) (pos : Nat) (acc : Int) : Int :=
  match l with
  | [] => acc
  | x :: xs => rfindAux xs c (pos + 1) (if x = c then (pos : Int) else acc)

/-- Python `p.rfind(c)` for a one-character needle. -/
def rfind (p : String) (c : Char) : Int :=
  rfindAux p.toList c 0 (-1)

/-- `os.path.splitext(p)[1]` (posix): the extension starting at the last
dot, provided that dot lies after the last `/` and some character
strictly between them is not a dot; otherwise the empty string. -/
def splitextExt (p : String) : String :=
  let l := p.toList
  let sepIndex := rfind p '/'
  let dotIndex := rfind p '.'
  if sepIndex < dotIndex then
    if (List.range l.length).any (fun i =>
        decide (sepIndex < (i : Int)) && decide ((i : Int) < dotIndex) &&
        decide (l.getD i ' ' ≠ '.')) then
      String.mk (l.drop dotIndex.toNat)
    else ""
  else ""

/-- `extract_text_from_pdf` (main.py lines 31-42): concatenates each
non-empty page text followed by a newline, strips the result; returns
`none` when pdfplumber raises. `pages` is the list of per-page
`page.extract_text()` results, `fault` models an exception. -/
def extract_text_from_pdf (pages : List (Option String)) (fault : Bool) :
    Option String :=
  if fault then none
  else
    some (pyStrip (pages.foldl
      (fun text p =>
        match p with
        | some page_text => if page_text = "" then text else text ++ page_text ++ "\n"
        | none => text)
      ""))

/-- Python `s[:n]`: the first `n` characters of `s`. -/
def pySlice (s : String) (n : Nat) : String :=
  String.mk (s.toList.take n)

/-- The text payload embedded in the Ollama prompt: `text[:4000]`
(main.py line 50). -/
def summarizeInput (text : String) : String :=
  pySlice text 4000

/-- Text of the prompt before the embedded payload (main.py lines 47-49). -/
def promptBefore : String :=
  "Buatlah ringkasan komprehensif dari teks berikut dalam bahasa Indonesia. \nRingkasan harus mencakup poin-poin utama dan informasi penting:\n\n"

/-- Text of the prompt after the embedded payload (main.py line 52). -/
def promptAfter : String :=
  "\n\nBerikan ringkasan yang jelas dan terstruktur."

/-- The full prompt f-string of `summarize_text` (main.py lines 47-52). -/
def buildPrompt (text : String) : String :=
  promptBefore ++ summarizeInput text ++ promptAfter

/-- `summarize_text` (main.py lines 44-64): sends the prompt to the
backend; returns the reply content, or `none` when `ollama.chat`
raises. `backend` maps the prompt to `none` (exception) or `some
content`. -/
def summarize_text (text : String) (backend : String → Option String) :
    Option String :=
  backend (buildPrompt text)

/-- Error message stored when extraction yields no text (main.py line 85). -/
def noTextMsg : String :=
  "No text found in PDF. The file might be empty or contain only images."

/-- Error message stored when summarization fails (main.py line 99). -/
def summaryFailMsg : String :=
  "Failed to generate summary. Ollama might be unavailable."

/-- The record created by `summarize_pdf` at submission
(main.py lines 170-173). -/
def initialRecord (filename : String) : JobRecord :=
  { status := .processing, filename := some filename }

/-- Result of one run of the job runner: the successive values of
`tasks_storage[job_id]` (first entry is the record created at
submission), and whether `summarize_text` was invoked. -/
structure RunResult where
  trace : List JobRecord
  summarizerCalled : Bool
deriving DecidableEq, Repr

/-- The record in force when the runner has finished: the last entry of
the trace. -/
def finalRecord (r : RunResult) : JobRecord :=
  r.trace.getLastD default

/-- `process_pdf_thread` (main.py lines 66-122), for the job created by
`summarize_pdf` on `filename`. `tempFault = some msg` models an
exception (with `str(e) = msg`) raised while writing the temporary
file, caught by the outer `except` (lines 111-115); `pages`/`extractFault`
feed `extract_text_from_pdf`; `backend` feeds `summarize_text`.
Each list entry is one observable assignment to the stored record. -/
def process_pdf_thread (filename : String) (tempFault : Option String)
    (pages : List (Option String)) (extractFault : Bool)
    (backend : String → Option String) : RunResult :=
  let init := initialRecord filename
  match tempFault with
  | some msg =>
      ⟨[init, { status := .error, error := some msg }], false⟩
  | none =>
    let r1 : JobRecord := { init with status := .extracting }
    match extract_text_from_pdf pages extractFault with
    | none =>
        ⟨[init, r1, { status := .error, error := some noTextMsg }], false⟩
    | some text =>
      if text = "" then
        ⟨[init, r1, { status := .error, error := some noTextMsg }], false⟩
      else
        let r2a : JobRecord := { r1 with status := .summarizing }
        let r2b : JobRecord := { r2a with text_length := some text.length }
        match summarize_text text backend with
        | none =>
            ⟨[init, r1, r2a, r2b,
              { status := .error, error := some summaryFailMsg }], true⟩
        | some s =>
          if s = "" then
            ⟨[init, r1, r2a, r2b,
              { status := .error, error := some summaryFailMsg }], true⟩
          else
            ⟨[init, r1, r2a, r2b,
              { status := .completed, filename := some filename,
                text_length := some text.length, summary := some s }], true⟩

/-- Outcome of `POST /summarize`: either an `HTTPException` with a status
code and detail, or acceptance storing a record under a fresh job id and
answering with status `"processing"`. -/
inductive SubmitOutcome where
  | rejected (status_code : Nat) (detail : String)
  | accepted (job_id : String) (stored : JobRecord) (response_status : String)
deriving DecidableEq, Repr

/-- Detail of the bad-extension rejection (main.py line 153). -/
def invalidTypeMsg : String := "Invalid file type. Only PDF files are allowed."

/-- Detail of the oversize rejection (main.py line 163). -/
def tooLargeMsg : String := "File too large. Maximum size is 10MB."

/-- `summarize_pdf` (main.py lines 144-188) up to dispatching the worker
thread: validates the extension (case-insensitively) and the content
length, then creates the job record in `processing` state. `job_id`
stands for the generated `uuid.uuid4()` string. -/
def summarize_pdf (filename : String) (content : List UInt8)
    (job_id : String) : SubmitOutcome :=
  let file_ext := pyLower (splitextExt filename)
  if file_ext ∉ ALLOWED_EXTENSIONS then
    .rejected 400 invalidTypeMsg
  else if MAX_FILE_SIZE < content.length then
    .rejected 400 tooLargeMsg
  else
    .accepted job_id (initialRecord filename) "processing"

/-- Pipeline order of statuses: both terminal states rank above
`summarizing`. -/
def statusRank : Status → Nat
  | .processing => 0
  | .extracting => 1
  | .summarizing => 2
  | .completed => 3
  | .error => 3

example : splitextExt "a.pdf" = ".pdf" := by decide
example : splitextExt "A.PDF" = ".PDF" := by decide
example : splitextExt "archive.tar.gz" = ".gz" := by decide
example : splitextExt "noext" = "" := by decide
example : splitextExt ".pdf" = "" := by decide
example : splitextExt "dir.d/noext" = "" := by decide
example : extract_text_from_pdf [some "hello"] false = some "hello" := by decide
example : extract_text_from_pdf [] false = some "" := by decide
example : extract_text_from_pdf [some "a", none, some "b"] false = some "a\nb" := by
  decide

/-- Claim C1: every run of the job runner on a job created by submission
ends with the job record in exactly one terminal state, `completed` or
`error`; a fault raised inside the pipeline (modelled by `tempFault`,
an exception at the temporary-file step, the one step of the `try` body
whose faults are not already absorbed by `extract_text_from_pdf` or
`summarize_text`) is caught at the runner boundary and recorded as
`error` carrying the fault's message, so the runner never leaves the job
in a non-terminal state. -/
theorem C1_runner_terminal (filename : String) (tempFault : Option String)
    (pages : List (Option String)) (extractFault : Bool)
    (backend : String → Option String) (msg : String) :
    ((finalRecord (process_pdf_thread filename tempFault pages extractFault backend)).status
        = Status.completed ∨
      (finalRecord (process_pdf_thread filename tempFault pages extractFault backend)).status
        = Status.error) ∧
    finalRecord (process_pdf_thread filename (some msg) pages extractFault backend)
        = { status := Status.error, error := some msg } := by
  constructor
  · unfold process_pdf_thread
    cases tempFault with
    | some m => simp [finalRecord, List.getLastD]
    | none =>
      cases hx : extract_text_from_pdf pages extractFault with
      | none => simp [finalRecord, List.getLastD]
      | some text =>
        by_cases ht : text = ""
        · simp [ht, finalRecord, List.getLastD]
        · cases hs : summarize_text text backend with
          | none => simp [ht, hs, finalRecord, List.getLastD]
          | some s =>
            by_cases hse : s = "" <;>
              simp [ht, hs, hse, finalRecord, List.getLastD]
  · unfold process_pdf_thread
    simp [finalRecord, List.getLastD]

/-- Claim C2: along any run, the successive stored records have
non-decreasing status in the pipeline order
`processing ≤ extracting ≤ summarizing ≤ terminal`; hence any polled
subsequence of statuses is non-decreasing and never moves backward. -/
theorem C2_status_monotone (filename : String) (tempFault : Option String)
    (pages : List (Option String)) (extractFault : Bool)
    (backend : String → Option String) :
    (process_pdf_thread filename tempFault pages extractFault backend).trace.Chain'
      (fun a b => statusRank a.status ≤ statusRank b.status) := by
  unfold process_pdf_thread
  cases tempFault with
  | some m => simp [initialRecord, statusRank]
  | none =>
    cases hx : extract_text_from_pdf pages extractFault with
    | none => simp [initialRecord, statusRank]
    | some text =>
      by_cases ht : text = ""
      · simp [ht, initialRecord, statusRank]
      · cases hs : summarize_text text backend with
        | none => simp [ht, hs, initialRecord, statusRank]
        | some s =>
          by_cases hse : s = "" <;>
            simp [ht, hs, hse, initialRecord, statusRank]

/-- Claim C4: in every record the runner or the submission ever stores,
`summary` is present exactly when the status is `completed`, and `error`
is present exactly when the status is `error`; in particular at a
terminal state exactly one of the two is present. -/
theorem C4_summary_error_iff (filename : String) (tempFault : Option String)
    (pages : List (Option String)) (extractFault : Bool)
    (backend : String → Option String) :
    ∀ j ∈ (process_pdf_thread filename tempFault pages extractFault backend).trace,
      (j.summary.isSome ↔ j.status = Status.completed) ∧
      (j.error.isSome ↔ j.status = Status.error) := by
  unfold process_pdf_thread
  cases tempFault with
  | some m =>
    intro j hj
    simp [initialRecord] at hj
    rcases hj with rfl | rfl <;> simp [initialRecord]
  | none =>
    cases hx : extract_text_from_pdf pages extractFault with
    | none =>
      intro j hj
      simp [initialRecord] at hj
      rcases hj with rfl | rfl | rfl <;> simp [initialRecord]
    | some text =>
      by_cases ht : text = ""
      · intro j hj
        simp [ht, initialRecord] at hj
        rcases hj with rfl | rfl | rfl <;> simp [initialRecord]
      · cases hs : summarize_text text backend with
        | none =>
          intro j hj
          simp [ht, hs, initialRecord] at hj
          rcases hj with rfl | rfl | rfl | rfl | rfl <;> simp [initialRecord]
        | some s =>
          by_cases hse : s = "" <;>
            · intro j hj
              simp [ht, hs, hse, initialRecord] at hj
              rcases hj with rfl | rfl | rfl | rfl | rfl <;> simp [initialRecord]

/-- Witness for C4 at a concrete run and the submission-time record. -/
theorem C4_summary_error_iff_witness :
    (initialRecord "a.pdf")
        ∈ (process_pdf_thread "a.pdf" none [] false (fun _ => none)).trace ∧
    (((initialRecord "a.pdf").summary.isSome
        ↔ (initialRecord "a.pdf").status = Status.completed) ∧
      ((initialRecord "a.pdf").error.isSome
        ↔ (initialRecord "a.pdf").status = Status.error)) :=
  ⟨by decide,
   C4_summary_error_iff "a.pdf" none [] false (fun _ => none)
     (initialRecord "a.pdf") (by decide)⟩

/-- Claim C6: whenever extraction fails (`none`) or yields the empty
string, the runner records `error` with the "no text found" message and
stops; the summarization step is never invoked for that job. -/
theorem C6_no_text_stops (filename : String) (pages : List (Option String))
    (extractFault : Bool) (backend : String → Option String)
    (hx : extract_text_from_pdf pages extractFault = none ∨
          extract_text_from_pdf pages extractFault = some "") :
    finalRecord (process_pdf_thread filename none pages extractFault backend) =
      { status := Status.error, error := some noTextMsg } ∧
    (process_pdf_thread filename none pages extractFault backend).summarizerCalled
      = false := by
  unfold process_pdf_thread
  rcases hx with hx | hx <;> simp [hx, finalRecord, List.getLastD]

/-- Witness for C6: a zero-page document extracts to the empty string. -/
theorem C6_no_text_stops_witness :
    (extract_text_from_pdf [] false = none ∨
      extract_text_from_pdf [] false = some "") ∧
    (finalRecord (process_pdf_thread "a.pdf" none [] false (fun _ => some "ok")) =
        { status := Status.error, error := some noTextMsg } ∧
      (process_pdf_thread "a.pdf" none [] false
          (fun _ => some "ok")).summarizerCalled = false) :=
  ⟨Or.inr (by decide),
   C6_no_text_stops "a.pdf" [] false (fun _ => some "ok") (Or.inr (by decide))⟩

/-- Counterexample to claim C3: a run whose extraction succeeds
(recording `text_length = 5` in the `summarizing` record) and whose
summarization then fails ends with an error record in which
`text_length` is absent — the error transition replaces the whole
record, so the earlier value does not remain visible. -/
theorem C3_counterexample :
    ({ status := Status.summarizing, filename := some "a.pdf",
        text_length := some 5 } : JobRecord)
        ∈ (process_pdf_thread "a.pdf" none [some "hello"] false
            (fun _ => none)).trace ∧
    finalRecord (process_pdf_thread "a.pdf" none [some "hello"] false
        (fun _ => none)) =
      { status := Status.error, error := some summaryFailMsg } ∧
    (finalRecord (process_pdf_thread "a.pdf" none [some "hello"] false
        (fun _ => none))).text_length = none := by
  refine ⟨by decide, by decide, by decide⟩

/-- Amended claim C3: when extraction succeeded and summarization fails,
the `summarizing`-state record did carry `text_length`, but the `error`
transition replaces the record with one holding only `status` and
`error` (the backend-unavailable message); `text_length` is dropped. -/
theorem C3_amended_thm (filename text : String) (pages : List (Option String))
    (extractFault : Bool) (backend : String → Option String)
    (hx : extract_text_from_pdf pages extractFault = some text)
    (ht : text ≠ "")
    (hs : summarize_text text backend = none ∨
          summarize_text text backend = some "") :
    ({ status := Status.summarizing, filename := some filename,
        text_length := some text.length } : JobRecord)
        ∈ (process_pdf_thread filename none pages extractFault backend).trace ∧
    finalRecord (process_pdf_thread filename none pages extractFault backend) =
      { status := Status.error, error := some summaryFailMsg } := by
  unfold process_pdf_thread
  rcases hs with hs | hs <;>
    simp [hx, ht, hs, finalRecord, List.getLastD, initialRecord]

/-- Witness for the amended C3 at a concrete run. -/
theorem C3_amended_thm_witness :
    extract_text_from_pdf [some "hello"] false = some "hello" ∧
    "hello" ≠ "" ∧
    (summarize_text "hello" (fun _ => none) = none ∨
      summarize_text "hello" (fun _ => none) = some "") ∧
    (({ status := Status.summarizing, filename := some "a.pdf",
         text_length := some "hello".length } : JobRecord)
        ∈ (process_pdf_thread "a.pdf" none [some "hello"] false
            (fun _ => none)).trace ∧
      finalRecord (process_pdf_thread "a.pdf" none [some "hello"] false
          (fun _ => none)) =
        { status := Status.error, error := some summaryFailMsg }) :=
  ⟨by decide, by decide, Or.inl rfl,
   C3_amended_thm "a.pdf" "hello" [some "hello"] false (fun _ => none)
     (by decide) (by decide) (Or.inl rfl)⟩

/-- Counterexample to claim C7: on a run that ends in `error` (here: a
document with no extractable text), the stored record no longer carries
the filename at all — the error transition replaces the record — so the
filename is not carried by every subsequent state. -/
theorem C7_counterexample :
    (process_pdf_thread "a.pdf" none [] false
        (fun _ => some "ok")).trace.headD default =
      initialRecord "a.pdf" ∧
    (initialRecord "a.pdf").filename = some "a.pdf" ∧
    (finalRecord (process_pdf_thread "a.pdf" none [] false
        (fun _ => some "ok"))).filename = none ∧
    ¬ (∀ j ∈ (process_pdf_thread "a.pdf" none [] false
          (fun _ => some "ok")).trace,
        j.filename = some "a.pdf") := by
  refine ⟨by decide, by decide, by decide, by decide⟩

/-- Amended claim C7: the filename is set at creation and preserved by
the `extracting`, `summarizing` and `completed` records, but every
`error` record drops it (the field is absent there). -/
theorem C7_amended_thm (filename : String) (tempFault : Option String)
    (pages : List (Option String)) (extractFault : Bool)
    (backend : String → Option String) :
    ∀ j ∈ (process_pdf_thread filename tempFault pages extractFault backend).trace,
      (j.status ≠ Status.error → j.filename = some filename) ∧
      (j.status = Status.error → j.filename = none) := by
  unfold process_pdf_thread
  cases tempFault with
  | some m =>
    intro j hj
    simp [initialRecord] at hj
    rcases hj with rfl | rfl <;> simp [initialRecord]
  | none =>
    cases hx : extract_text_from_pdf pages extractFault with
    | none =>
      intro j hj
      simp [initialRecord] at hj
      rcases hj with rfl | rfl | rfl <;> simp [initialRecord]
    | some text =>
      by_cases ht : text = ""
      · intro j hj
        simp [ht, initialRecord] at hj
        rcases hj with rfl | rfl | rfl <;> simp [initialRecord]
      · cases hs : summarize_text text backend with
        | none =>
          intro j hj
          simp [ht, hs, initialRecord] at hj
          rcases hj with rfl | rfl | rfl | rfl | rfl <;> simp [initialRecord]
        | some s =>
          by_cases hse : s = "" <;>
            · intro j hj
              simp [ht, hs, hse, initialRecord] at hj
              rcases hj with rfl | rfl | rfl | rfl | rfl <;> simp [initialRecord]

/-- Witness for the amended C7 at a concrete run and record. -/
theorem C7_amended_thm_witness :
    (initialRecord "a.pdf")
        ∈ (process_pdf_thread "a.pdf" none [] false (fun _ => none)).trace ∧
    (initialRecord "a.pdf").status ≠ Status.error ∧
    (initialRecord "a.pdf").filename = some "a.pdf" :=
  ⟨by decide, by decide,
   (C7_amended_thm "a.pdf" none [] false (fun _ => none)
       (initialRecord "a.pdf") (by decide)).1 (by decide)⟩

/-- Counterexample to claim C9: the two summarization failure modes —
backend unreachable (`ollama.chat` raises, port signal `none`) and
backend returning empty content (port signal `some ""`) — produce
identical runs and identical stored error records, so the job's recorded
error does not reflect which of the two occurred. -/
theorem C9_counterexample :
    summarize_text "hello" (fun _ => none) = none ∧
    summarize_text "hello" (fun _ => some "") = some "" ∧
    process_pdf_thread "a.pdf" none [some "hello"] false (fun _ => none) =
      process_pdf_thread "a.pdf" none [some "hello"] false (fun _ => some "") ∧
    (finalRecord (process_pdf_thread "a.pdf" none [some "hello"] false
        (fun _ => none))).error = some summaryFailMsg := by
  refine ⟨rfl, rfl, by decide, by decide⟩

/-- Amended claim C9: `summarize_text` does return distinguishable
port-level signals (`none` when the backend raises, `some ""` when it
returns empty content), but the runner collapses both into the same
`error` record with the single backend-unavailable message, so the
recorded error never distinguishes the two cases: the two failure modes
yield identical runs. -/
theorem C9_amended_thm (filename text : String) (pages : List (Option String))
    (extractFault : Bool) :
    summarize_text text (fun _ => none) = none ∧
    summarize_text text (fun _ => some "") = some "" ∧
    process_pdf_thread filename none pages extractFault (fun _ => none) =
      process_pdf_thread filename none pages extractFault (fun _ => some "") := by
  refine ⟨rfl, rfl, ?_⟩
  unfold process_pdf_thread
  cases hx : extract_text_from_pdf pages extractFault with
  | none => simp
  | some t =>
    by_cases ht : t = "" <;> simp [ht, summarize_text]

/-- Claim C5: submission is rejected synchronously with a 400 client
error — and no job record is created, no job id returned — exactly when
the filename's extension, lowercased, is not an accepted type or the
content length exceeds the 10 MiB maximum; otherwise a job record is
created in `processing` state and the fresh job id is returned. -/
theorem C5_submit_validation (filename : String) (content : List UInt8)
    (job_id : String) :
    ((pyLower (splitextExt filename) ∉ ALLOWED_EXTENSIONS ∨
        MAX_FILE_SIZE < content.length) ↔
      (∃ d, summarize_pdf filename content job_id =
        SubmitOutcome.rejected 400 d)) ∧
    (pyLower (splitextExt filename) ∈ ALLOWED_EXTENSIONS →
      content.length ≤ MAX_FILE_SIZE →
      summarize_pdf filename content job_id =
        SubmitOutcome.accepted job_id (initialRecord filename) "processing") := by
  unfold summarize_pdf
  by_cases hext : pyLower (splitextExt filename) ∈ ALLOWED_EXTENSIONS
  · by_cases hlen : MAX_FILE_SIZE < content.length
    · exact ⟨by simp [hext, hlen], fun _ h => absurd hlen (by omega)⟩
    · exact ⟨by simp [hext, hlen], fun _ _ => by simp [hext, hlen]⟩
  · exact ⟨by simp [hext], fun h => absurd h hext⟩

/-- Witness for C5: an uppercase extension is accepted case-insensitively. -/
theorem C5_submit_validation_witness :
    pyLower (splitextExt "Report.PDF") ∈ ALLOWED_EXTENSIONS ∧
    ([] : List UInt8).length ≤ MAX_FILE_SIZE ∧
    summarize_pdf "Report.PDF" [] "job-1" =
      SubmitOutcome.accepted "job-1" (initialRecord "Report.PDF") "processing" :=
  ⟨by decide, by decide,
   (C5_submit_validation "Report.PDF" [] "job-1").2 (by decide) (by decide)⟩

/-- Claim C10: for an accepted extension only the upper size bound is
checked: empty content and content of exactly `10*1024*1024` bytes are
accepted (job created in `processing`, id returned), and in general
acceptance holds exactly when the length is at most the maximum —
emptiness is never checked at submission. -/
theorem C10_size_upper_bound_only (filename : String) (job_id : String)
    (hext : pyLower (splitextExt filename) ∈ ALLOWED_EXTENSIONS) :
    summarize_pdf filename [] job_id =
      SubmitOutcome.accepted job_id (initialRecord filename) "processing" ∧
    summarize_pdf filename (List.replicate MAX_FILE_SIZE 0) job_id =
      SubmitOutcome.accepted job_id (initialRecord filename) "processing" ∧
    (∀ content : List UInt8,
      (summarize_pdf filename content job_id =
          SubmitOutcome.accepted job_id (initialRecord filename) "processing") ↔
        content.length ≤ MAX_FILE_SIZE) := by
  refine ⟨by simp [summarize_pdf, hext], by simp [summarize_pdf, hext], ?_⟩
  intro content
  by_cases hlen : MAX_FILE_SIZE < content.length
  · simp [summarize_pdf, hext, hlen]
  · simp [summarize_pdf, hext, hlen]
    omega

/-- Witness for C10 at a concrete accepted extension. -/
theorem C10_size_upper_bound_only_witness :
    pyLower (splitextExt "a.pdf") ∈ ALLOWED_EXTENSIONS ∧
    summarize_pdf "a.pdf" [] "job-1" =
      SubmitOutcome.accepted "job-1" (initialRecord "a.pdf") "processing" :=
  ⟨by decide, (C10_size_upper_bound_only "a.pdf" "job-1" (by decide)).1⟩

/-- Claim C8: the text payload handed to the summarization backend is
the prefix of the extracted text truncated to the 4000-character budget:
the backend is invoked on the prompt embedding `summarizeInput text`,
texts of length at most 4000 are embedded whole, and longer texts are
cut to exactly their first 4000 characters. -/
theorem C8_truncation (text : String) (backend : String → Option String) :
    summarize_text text backend =
      backend (promptBefore ++ summarizeInput text ++ promptAfter) ∧
    (summarizeInput text).toList = text.toList.take 4000 ∧
    (text.length ≤ 4000 → summarizeInput text = text) ∧
    (summarizeInput text).length = min 4000 text.length := by
  refine ⟨rfl, rfl, ?_, ?_⟩
  · intro h
    show String.mk (text.toList.take 4000) = text
    have h2 : text.toList.length ≤ 4000 := h
    rw [List.take_of_length_le h2]
    rfl
  · show (text.toList.take 4000).length = min 4000 text.toList.length
    exact List.length_take 4000 text.toList

/-- Witness for C8: a short text is embedded whole. -/
theorem C8_truncation_witness :
    ("abc" : String).length ≤ 4000 ∧ summarizeInput "abc" = "abc" :=
  ⟨by decide, (C8_truncation "abc" (fun _ => none)).2.2.1 (by decide)⟩
